import Mathlib

/-!
Verification of the `cw20-merkle-bidding-airdrop` contract
(`src/contracts/cw20-merkle-bidding-airdrop/src/{contract,state,msg,error}.rs`).

The embedding below follows `contract.rs` handler by handler: every check is
translated in the order the Rust code performs it, and every storage write is
made explicit on a `ContractState` record.  A handler returns `ExecResult`:
`ok` carries the new state together with the produced `Response` (messages and
attributes), `err` carries the typed `ContractError`, and `panic` marks the
executions in which the Rust code calls `Option::unwrap` on `None` (the
`BIDS.update` closures do exactly that for a first-time bidder).  As in
CosmWasm, an `err` or `panic` outcome reverts the whole call, so the prior
state is kept unchanged by the host; `ok` is the only constructor carrying a
state.

Notes on the source, reflected faithfully here:
* `state.rs` declares `Stage { start: Scheduled, duration: Duration }` while
  `contract.rs` reads `stage.end` as an `Expiration` (its unit tests build
  `Stage { start, end }` literals); the spec says the end is derived as
  `start + duration`.  We embed a stage as its start trigger together with
  its (derived) end; `end` is a Lean keyword, so the field is called
  `ending`.
* The `ClaimAirdrop` handler is declared in `msg.rs` and exercised by
  `integration_test.rs`, but its implementation is commented out of
  `contract.rs`; it is modelled from the spec (see `execute_claim_airdrop`).
* `contract.rs` names two error variants (`BidStageEnded`, `NonExistentBid`)
  that `error.rs` spells `BidStageExpired` and `BidNotPresent`; the embedded
  error type keeps the names used at the call sites of `contract.rs`.
-/

namespace Cw

/-- Block information of the execution context (`cosmwasm_std::BlockInfo`):
current chain height and timestamp. -/
structure BlockInfo where
  height : Nat
  time : Nat
deriving DecidableEq

/-- Trigger for the start of a stage (`cw_utils::Scheduled`). -/
inductive Scheduled where
  | atHeight (h : Nat)
  | atTime (t : Nat)
deriving DecidableEq

/-- Trigger for the end of a stage (`cw_utils::Expiration`). -/
inductive Expiration where
  | atHeight (h : Nat)
  | atTime (t : Nat)
  | never
deriving DecidableEq

/-- `Scheduled::is_triggered(&block)`: the start has been reached. -/
def Scheduled.is_triggered : Scheduled → BlockInfo → Bool
  | .atHeight h, b => decide (h ≤ b.height)
  | .atTime t, b => decide (t ≤ b.time)

/-- `Expiration::is_expired(&block)`: the end has been reached. -/
def Expiration.is_expired : Expiration → BlockInfo → Bool
  | .atHeight h, b => decide (h ≤ b.height)
  | .atTime t, b => decide (t ≤ b.time)
  | .never, _ => false

/-- Stage window (`state.rs` `Stage`).  `state.rs` stores `start` and a
`duration`; `contract.rs` reads the end as an `Expiration`.  Per the spec the
end is derived as `start + duration`, so we carry the derived end; a
height-based stage with start `h` and duration `d` is
`⟨.atHeight h, .atHeight (h + d)⟩` (see `height_stage`). -/
structure Stage where
  start : Scheduled
  ending : Expiration
deriving DecidableEq

/-- Height-based stage `{ start: AtHeight h, duration: Height d }` of
`state.rs`, with its derived end `start + duration`. -/
def height_stage (h d : Nat) : Stage :=
  { start := .atHeight h, ending := .atHeight (h + d) }

/-- Contract configuration (`state.rs` `Config`): owner `None` means the
contract is frozen for privileged operations. -/
structure Config where
  owner : Option String
  cw20_token_address : String
deriving DecidableEq

/-- A native coin (`cosmwasm_std::Coin`); amounts are `Uint128` in the
source, kept abstractly as `Nat` (no claim involves 128-bit overflow). -/
structure Coin where
  denom : String
  amount : Nat
deriving DecidableEq

/-- Outbound messages the contract can schedule in a `Response`. -/
inductive CosmosMsg where
  | bankSend (to_address : String) (amount : List Coin)
  | wasmCw20Transfer (contract : String) (recipient : String) (amount : Nat)
deriving DecidableEq

/-- `cosmwasm_std::Response`: scheduled messages plus event attributes. -/
structure Response where
  messages : List CosmosMsg
  attributes : List (String × String)
deriving DecidableEq

/-- The `ContractError` variants of `error.rs`, plus the two names
(`BidStageEnded`, `NonExistentBid`) that `contract.rs` uses at its call
sites; `Std` stands for an underlying storage error (e.g. a failing
`Map::load` on a missing key). -/
inductive ContractError where
  | Std
  | Hex
  | Unauthorized
  | AlreadyClaimed
  | VerificationFailed
  | ClaimAirdropStageExpired
  | ClaimAirdropStageNotFinished
  | ClaimAirdropStageNotBegun
  | BidStageNotBegun
  | BidStageEnded
  | TicketPriceNotPaid
  | CannotBidMoreThanOnce
  | BidNotPresent
  | NonExistentBid
  | BidStartPassed
  | StagesOverlap (first : String) (second : String)
deriving DecidableEq

/-- Lookup in an association list (`cw_storage_plus::Map::may_load`). -/
def assocGet {α : Type} : List (String × α) → String → Option α
  | [], _ => none
  | (k1, v) :: rest, k => if k = k1 then some v else assocGet rest k

/-- Insert or overwrite a key (`cw_storage_plus::Map::save`). -/
def assocSet {α : Type} : List (String × α) → String → α → List (String × α)
  | [], k, v => [(k, v)]
  | (k1, v1) :: rest, k, v =>
    if k = k1 then (k, v) :: rest else (k1, v1) :: assocSet rest k v

/-- Delete a key (`cw_storage_plus::Map::remove`). -/
def assocRemove {α : Type} : List (String × α) → String → List (String × α)
  | [], _ => []
  | (k1, v1) :: rest, k =>
    if k = k1 then assocRemove rest k else (k1, v1) :: assocRemove rest k

/-- The persistent state of the contract: the items and maps of `state.rs`
that the embedded handlers read or write.  `claimed_airdrop_amount` and
`total_airdrop_amount` are `Option` because `instantiate` never initializes
them (`Item::may_load` would yield `None`). -/
structure ContractState where
  config : Config
  stage_bid : Stage
  stage_claim_airdrop : Stage
  stage_claim_prize : Stage
  ticket_price : Nat
  bids : List (String × Nat)
  merkle_root_airdrop : Option String
  claimed_airdrop_amount : Option Nat
  total_airdrop_amount : Option Nat
  claim_airdrop : List (String × Bool)
deriving DecidableEq

/-- Result of an execute entry point.  `ok` is the only constructor carrying
a state: CosmWasm reverts every write when a handler returns an error or
panics, so on `err`/`panic` the pre-call state persists unchanged. -/
inductive ExecResult where
  | ok (st : ContractState) (resp : Response)
  | err (e : ContractError)
  | panic
deriving DecidableEq

/-- Whether an execution succeeded. -/
def ExecResult.isOk : ExecResult → Bool
  | .ok _ _ => true
  | _ => false

/-- `msg.rs` `InstantiateMsg`. -/
structure InstantiateMsg where
  owner : Option String
  cw20_token_address : String
  ticket_price : Nat
  bins : Nat
  stage_bid : Stage
  stage_claim_airdrop : Stage
  stage_claim_prize : Stage
deriving DecidableEq

/-- The state written by `instantiate` (`contract.rs` lines 27-52): config
with `owner = msg.owner.unwrap_or(info.sender)`, the three stages, and the
ticket price.  Nothing else is initialized: no merkle root, no claimed or
total amounts, empty bid and claim maps. -/
def initial_state (sender : String) (msg : InstantiateMsg) : ContractState :=
  { config := { owner := some (msg.owner.getD sender)
              , cw20_token_address := msg.cw20_token_address }
  , stage_bid := msg.stage_bid
  , stage_claim_airdrop := msg.stage_claim_airdrop
  , stage_claim_prize := msg.stage_claim_prize
  , ticket_price := msg.ticket_price
  , bids := []
  , merkle_root_airdrop := none
  , claimed_airdrop_amount := none
  , total_airdrop_amount := none
  , claim_airdrop := [] }

/-- `instantiate` (`contract.rs` lines 27-52).  The body performs no stage
validation whatsoever: it saves the config, the three stages and the ticket
price and returns `Response::default()` unconditionally. -/
def instantiate (sender : String) (msg : InstantiateMsg) : ExecResult :=
  .ok (initial_state sender msg) { messages := [], attributes := [] }

/-- `get_amount_for_denom` (`contract.rs` lines 272-282): sum of the sent
funds restricted to one denomination. -/
def get_amount_for_denom (coins : List Coin) (denom : String) : Coin :=
  { denom := denom
  , amount := (coins.filter (fun c => c.denom == denom)).foldl
      (fun acc c => acc + c.amount) 0 }

/-- `send_back_bid` (`contract.rs` lines 284-296): builds (and only builds)
a bank transfer of `bid` units of `denom` to `recipient`. -/
def send_back_bid (recipient : String) (bid : Nat) (denom : String) : CosmosMsg :=
  .bankSend recipient [{ denom := denom, amount := bid }]

/-- `execute_bid` (`contract.rs` lines 106-149).  Checks, in source order:
owner (missing or different sender ⇒ `Unauthorized`), bid stage started,
bid stage not ended, ticket price covered by the `"ujuno"` funds.  The final
`BIDS.update` closure is `|allocation| Ok(allocation.unwrap())`, where the
closure argument shadows the message's allocation with the *previous* stored
value: a first-time bidder hits `None.unwrap()` (a panic) and a repeat bidder
re-stores the old value.  No `CannotBidMoreThanOnce` check exists and no
refund of any overpayment is ever added to the response. -/
def execute_bid (st : ContractState) (block : BlockInfo) (sender : String)
    (funds : List Coin) (allocation : Nat) : ExecResult :=
  match st.config.owner with
  | none => .err .Unauthorized
  | some owner =>
    if sender ≠ owner then .err .Unauthorized
    else if ! st.stage_bid.start.is_triggered block then .err .BidStageNotBegun
    else if st.stage_bid.ending.is_expired block then .err .BidStageEnded
    else if (get_amount_for_denom funds "ujuno").amount < st.ticket_price then
      .err .TicketPriceNotPaid
    else
      match assocGet st.bids sender with
      | none => .panic
      | some old =>
        .ok { st with bids := assocSet st.bids sender old }
          { messages := []
          , attributes := [("action", "bid"), ("player", sender),
              ("allocation", toString allocation)] }

/-- `execute_change_bid` (`contract.rs` lines 179-224).  Owner and stage
checks as in `execute_bid`; loading a missing bid fails with a storage error
(`BIDS.load`), a stored zero bid fails `NonExistentBid`; the final
`BIDS.update` closure again returns `allocation.unwrap()` — the *old* stored
value — so the new allocation is never written. -/
def execute_change_bid (st : ContractState) (block : BlockInfo) (sender : String)
    (allocation : Nat) : ExecResult :=
  match st.config.owner with
  | none => .err .Unauthorized
  | some owner =>
    if sender ≠ owner then .err .Unauthorized
    else if ! st.stage_bid.start.is_triggered block then .err .BidStageNotBegun
    else if st.stage_bid.ending.is_expired block then .err .BidStageEnded
    else
      match assocGet st.bids sender with
      | none => .err .Std
      | some bid =>
        if bid = 0 then .err .NonExistentBid
        else
          .ok { st with bids := assocSet st.bids sender bid }
            { messages := []
            , attributes := [("action", "change_bid"), ("player", sender),
                ("allocation", toString allocation)] }

/-- `execute_remove_bid` (`contract.rs` lines 226-269).  Owner and stage
checks as in `execute_bid`; loading a missing bid fails with a storage
error, a stored zero bid fails `NonExistentBid`; on success the bid record
is removed and `send_back_bid(&sender, bid, "ujuno")` is called — but its
returned message is discarded (never added to the response), so no refund is
scheduled. -/
def execute_remove_bid (st : ContractState) (block : BlockInfo)
    (sender : String) : ExecResult :=
  match st.config.owner with
  | none => .err .Unauthorized
  | some owner =>
    if sender ≠ owner then .err .Unauthorized
    else if ! st.stage_bid.start.is_triggered block then .err .BidStageNotBegun
    else if st.stage_bid.ending.is_expired block then .err .BidStageEnded
    else
      match assocGet st.bids sender with
      | none => .err .Std
      | some bid =>
        if bid = 0 then .err .NonExistentBid
        else
          let _dropped := send_back_bid sender bid "ujuno"
          .ok { st with bids := assocRemove st.bids sender }
            { messages := []
            , attributes := [("action", "remove_bid"), ("player", sender)] }

/-- Hexadecimal digit test for `hex::decode`. -/
def is_hex_digit (c : Char) : Bool :=
  (decide (48 ≤ c.toNat) && decide (c.toNat ≤ 57)) ||
  (decide (97 ≤ c.toNat) && decide (c.toNat ≤ 102)) ||
  (decide (65 ≤ c.toNat) && decide (c.toNat ≤ 70))

/-- `hex::decode_to_slice(&s, &mut [u8; 32])` succeeds iff `s` is exactly 64
hexadecimal characters (so it decodes to exactly 32 bytes).  Only success or
failure is tracked: the handler never reads the decoded bytes (`root_buf` is
unused afterwards). -/
def hex_decode_to_slice_ok (s : String) : Bool :=
  decide (s.length = 64) && s.data.all is_hex_digit

/-- `execute_register_merkle_root` (`contract.rs` lines 151-177): owner
check (missing owner or different sender ⇒ `Unauthorized`), hex decode of
the root into a 32-byte buffer (wrong length or non-hex ⇒ hex error), then
the root string is saved.  Nothing else is written: the claimed amount is
not reset and no total allocation is stored. -/
def execute_register_merkle_root (st : ContractState) (sender : String)
    (merkle_root : String) : ExecResult :=
  match st.config.owner with
  | none => .err .Unauthorized
  | some owner =>
    if sender ≠ owner then .err .Unauthorized
    else if ! hex_decode_to_slice_ok merkle_root then .err .Hex
    else
      .ok { st with merkle_root_airdrop := some merkle_root }
        { messages := []
        , attributes := [("action", "register_merkle_root"),
            ("merkle_root", merkle_root)] }

/-- Modelled from the spec: `execute_claim_airdrop` is missing from
`contract.rs` (its dispatch arm and implementation are commented out; only
the `ExecuteMsg::ClaimAirdrop` declaration in `msg.rs` and the integration
tests remain).  Per §4.3 of the spec the handler requires the ClaimAirdrop
stage to be active, fails `AlreadyClaimed` when the participant's claim
record is set, fails `VerificationFailed` when the Merkle proof does not
verify, and on success marks the claim record, adds `amount` to the running
claimed total and emits a cw20 transfer of `amount` to the participant.
Merkle-proof verification itself (SHA-256 over the leaf and sorted pairwise
concatenation) is abstracted as the parameter `verify`; the double-claim
behaviour under scrutiny here is independent of it. -/
def execute_claim_airdrop (verify : String → Nat → List String → Bool)
    (st : ContractState) (block : BlockInfo) (sender : String)
    (amount : Nat) (proof_airdrop : List String) : ExecResult :=
  if ! st.stage_claim_airdrop.start.is_triggered block then
    .err .ClaimAirdropStageNotBegun
  else if st.stage_claim_airdrop.ending.is_expired block then
    .err .ClaimAirdropStageExpired
  else if (assocGet st.claim_airdrop sender).getD false then
    .err .AlreadyClaimed
  else if ! verify sender amount proof_airdrop then
    .err .VerificationFailed
  else
    .ok { st with
            claim_airdrop := assocSet st.claim_airdrop sender true
          , claimed_airdrop_amount :=
              some (st.claimed_airdrop_amount.getD 0 + amount) }
      { messages := [.wasmCw20Transfer st.config.cw20_token_address sender amount]
      , attributes := [("action", "claim_airdrop")] }

/-! Concrete fixtures, mirroring `integration_test.rs` (`valid_stages`,
`global_variables`): ticket price 10 `ujuno`, bid window `[200000, 200002)`,
claim-airdrop window `[201000, 201002)`, claim-prize window
`[202000, 202002)`, owner `"owner"`. -/

/-- A well-formed instantiation message (the valid setup of the tests). -/
def valid_msg : InstantiateMsg :=
  { owner := some "owner"
  , cw20_token_address := "random0000"
  , ticket_price := 10
  , bins := 10
  , stage_bid := height_stage 200000 2
  , stage_claim_airdrop := height_stage 201000 2
  , stage_claim_prize := height_stage 202000 2 }

/-- State right after a valid instantiation. -/
def base_state : ContractState := initial_state "creator" valid_msg

/-- A block inside the bid window. -/
def block_bid_active : BlockInfo := { height := 200001, time := 0 }

/-- State in which the owner already has a stored bid of 1. -/
def bid_state : ContractState := { base_state with bids := [("owner", 1)] }

/-- Helper lemma: a key just written is read back. -/
theorem assocGet_assocSet_self {α : Type} (m : List (String × α)) (k : String)
    (v : α) : assocGet (assocSet m k v) k = some v := by
  induction m with
  | nil => simp [assocSet, assocGet]
  | cons hd tl ih =>
    obtain ⟨k1, v1⟩ := hd
    by_cases h : k = k1
    · simp [assocSet, assocGet, h]
    · simp [assocSet, assocGet, h, ih]

/-! Claim theorems. -/

/-- The instantiation message of the `StagesOverlap` case of
`test_instantiate` in `integration_test.rs`: the claim-airdrop window is
moved to start at height 100000, far before the bid window ends at 200002
(setup happens at height 199999, so the bid start is still in the future;
the overlap alone must reject the setup). -/
def overlap_msg : InstantiateMsg :=
  { valid_msg with stage_claim_airdrop := height_stage 100000 2 }

/-- C1: the spec requires `instantiate` to fail with
`StagesOverlap { first := "bid", second := "Claim airdrop" }` on this input
(and the repository's own `test_instantiate` asserts exactly that), writing
no persistent state.  The `instantiate` of `contract.rs` performs no stage
validation at all: on the overlapping configuration it succeeds and persists
the overlapping stages (bid ends at 200002, claim-airdrop starts at
100000). -/
theorem instantiate_ignores_stage_overlap :
    instantiate "owner" overlap_msg =
      .ok (initial_state "owner" overlap_msg) { messages := [], attributes := [] } ∧
    (initial_state "owner" overlap_msg).stage_bid.ending = .atHeight 200002 ∧
    (initial_state "owner" overlap_msg).stage_claim_airdrop.start = .atHeight 100000 :=
  ⟨rfl, rfl, rfl⟩

/-- C2: double-claim prevention of the (spec-modelled) airdrop claim: a
successful claim marks the participant's record, and any second claim by the
same participant — whatever the amount and proof — fails `AlreadyClaimed`
while the stage is active (an error reverts the call, so the claimed total
recorded by the first call stays unchanged). -/
theorem claim_airdrop_no_double_claim
    (verify : String → Nat → List String → Bool)
    (st st2 : ContractState) (resp : Response) (block block2 : BlockInfo)
    (sender : String) (amount amount2 : Nat) (proof proof2 : List String)
    (hfirst : execute_claim_airdrop verify st block sender amount proof = .ok st2 resp)
    (hstart : st2.stage_claim_airdrop.start.is_triggered block2 = true)
    (hexp : st2.stage_claim_airdrop.ending.is_expired block2 = false) :
    execute_claim_airdrop verify st2 block2 sender amount2 proof2 =
      .err .AlreadyClaimed ∧
    assocGet st2.claim_airdrop sender = some true := by
  unfold execute_claim_airdrop at hfirst
  split at hfirst
  · exact ExecResult.noConfusion hfirst
  split at hfirst
  · exact ExecResult.noConfusion hfirst
  split at hfirst
  · exact ExecResult.noConfusion hfirst
  split at hfirst
  · exact ExecResult.noConfusion hfirst
  injection hfirst with hst hresp
  subst hst
  refine ⟨?_, assocGet_assocSet_self _ _ _⟩
  simp [execute_claim_airdrop, hstart, hexp, assocGet_assocSet_self]

/-- A verifier accepting every proof, used to instantiate the abstract
verification parameter in the witness. -/
def verify_any : String → Nat → List String → Bool := fun _ _ _ => true

/-- A block inside the claim-airdrop window. -/
def claim_block : BlockInfo := { height := 201001, time := 0 }

/-- The state produced by a first successful claim of 100 by `"addrA"`. -/
def after_claim_state : ContractState :=
  { base_state with
      claim_airdrop := [("addrA", true)]
    , claimed_airdrop_amount := some 100 }

/-- Witness for C2 at a concrete input: `"addrA"` claims 100 at height
201001; the repeated claim fails `AlreadyClaimed`. -/
theorem claim_airdrop_no_double_claim_witness :
    execute_claim_airdrop verify_any after_claim_state claim_block "addrA" 100 [] =
      .err .AlreadyClaimed ∧
    assocGet after_claim_state.claim_airdrop "addrA" = some true :=
  claim_airdrop_no_double_claim verify_any base_state after_claim_state
    { messages := [.wasmCw20Transfer "random0000" "addrA" 100]
    , attributes := [("action", "claim_airdrop")] }
    claim_block claim_block "addrA" 100 100 [] [] rfl rfl rfl

/-- C3: the spec (and scenario B, asserted by `valid_bid_with_change` in
`integration_test.rs`) requires a bid with overpayment to store the bid and
schedule a refund of the excess (13 sent, price 10 ⇒ refund 3).  The code
does neither: a first-time bidder panics (the `BIDS.update` closure calls
`unwrap` on the missing previous value), and even when a previous bid exists
the handler returns a response with no messages at all, so no refund is ever
scheduled. -/
theorem bid_overpayment_refund_broken :
    execute_bid base_state block_bid_active "owner"
      [{ denom := "ujuno", amount := 13 }] 1 = .panic ∧
    execute_bid bid_state block_bid_active "owner"
      [{ denom := "ujuno", amount := 13 }] 1 =
      .ok bid_state
        { messages := []
        , attributes := [("action", "bid"), ("player", "owner"),
            ("allocation", "1")] } :=
  ⟨rfl, rfl⟩

/-- C4: the spec (and `valid_bid_no_change` in `integration_test.rs`)
requires a second bid by the same participant to fail
`CannotBidMoreThanOnce`.  `execute_bid` contains no such check: with a bid
already stored, a second bid with sufficient funds succeeds (re-storing the
old value). -/
theorem second_bid_not_rejected :
    execute_bid bid_state block_bid_active "owner"
      [{ denom := "ujuno", amount := 10 }] 2 =
      .ok bid_state
        { messages := []
        , attributes := [("action", "bid"), ("player", "owner"),
            ("allocation", "2")] } ∧
    execute_bid bid_state block_bid_active "owner"
      [{ denom := "ujuno", amount := 10 }] 2 ≠
      .err .CannotBidMoreThanOnce := by
  have h1 : execute_bid bid_state block_bid_active "owner"
      [{ denom := "ujuno", amount := 10 }] 2 =
      .ok bid_state
        { messages := []
        , attributes := [("action", "bid"), ("player", "owner"),
            ("allocation", "2")] } := rfl
  exact ⟨h1, fun h => ExecResult.noConfusion (h1.symm.trans h)⟩

/-- C5: the spec (and the `remove_bid` test, which checks the participant's
bank balance is restored) requires `RemoveBid` to schedule a refund of the
ticket price.  The code removes the bid record but discards the bank message
built by `send_back_bid` (its return value is dropped on line 262), so the
response schedules no transfer; moreover the message it builds refunds the
stored bid value (here 1), not the ticket price (10). -/
theorem remove_bid_refund_dropped :
    execute_remove_bid bid_state block_bid_active "owner" =
      .ok { bid_state with bids := [] }
        { messages := []
        , attributes := [("action", "remove_bid"), ("player", "owner")] } ∧
    send_back_bid "owner" 1 "ujuno" =
      .bankSend "owner" [{ denom := "ujuno", amount := 1 }] :=
  ⟨rfl, rfl⟩

/-- C6: the spec (and the `change_bid` test, which expects the stored bid to
become 2) requires `ChangeBid(new_value)` to overwrite the stored bid.  The
`BIDS.update` closure returns the *old* allocation, so after
`ChangeBid(2)` the stored bid is still 1. -/
theorem change_bid_does_not_overwrite :
    execute_change_bid bid_state block_bid_active "owner" 2 =
      .ok bid_state
        { messages := []
        , attributes := [("action", "change_bid"), ("player", "owner"),
            ("allocation", "2")] } ∧
    assocGet bid_state.bids "owner" = some 1 :=
  ⟨rfl, rfl⟩

/-- The 64-character root of the repository's `register_merkle_root` test. -/
def test_root : String :=
  "634de21cde1044f41d90373733b0f0fb1c1c71f9652b905cdf159e73c4cf0d37"

/-- A state in which 5 tokens have already been recorded as claimed. -/
def claimed_five_state : ContractState :=
  { base_state with claimed_airdrop_amount := some 5 }

/-- C7: the owner gate and the 32-byte hex check hold (see the first
conjunct: a valid root is accepted and stored), but the spec (and the
`register_merkle_root` unit test, which expects a `total_amount` attribute,
and the integration `claim` test, which reads back total and claimed
amounts) also requires the claimed amount to be reset to 0 and a total
allocation to be stored.  The handler writes only the root: a pre-existing
claimed amount of 5 survives registration and no total is stored. -/
theorem register_merkle_root_no_reset :
    execute_register_merkle_root claimed_five_state "owner" test_root =
      .ok { claimed_five_state with merkle_root_airdrop := some test_root }
        { messages := []
        , attributes := [("action", "register_merkle_root"),
            ("merkle_root", test_root)] } ∧
    ({ claimed_five_state with merkle_root_airdrop := some test_root } :
        ContractState).claimed_airdrop_amount = some 5 ∧
    ({ claimed_five_state with merkle_root_airdrop := some test_root } :
        ContractState).total_airdrop_amount = none := by
  refine ⟨?_, rfl, rfl⟩
  decide

/-- C8: a bid whose funds in the ticket denomination (`"ujuno"`, funds in
other denominations not counting, per `get_amount_for_denom`) total strictly
less than the ticket price fails `TicketPriceNotPaid`.  The check sits after
the owner and stage gates (hence the hypotheses) and before the only write
of the handler; an erroring call reverts, so no state mutation is visible
afterwards (`err` carries no state). -/
theorem bid_insufficient_funds_rejected
    (st : ContractState) (block : BlockInfo) (sender : String)
    (funds : List Coin) (allocation : Nat)
    (hown : st.config.owner = some sender)
    (hstart : st.stage_bid.start.is_triggered block = true)
    (hexp : st.stage_bid.ending.is_expired block = false)
    (hfunds : (get_amount_for_denom funds "ujuno").amount < st.ticket_price) :
    execute_bid st block sender funds allocation = .err .TicketPriceNotPaid := by
  simp [execute_bid, hown, hstart, hexp, hfunds]

/-- Witness for C8: 1000 `ubtc` and 3 `ujuno` sent against a ticket price of
10 `ujuno`. -/
theorem bid_insufficient_funds_rejected_witness :
    execute_bid base_state block_bid_active "owner"
      [{ denom := "ubtc", amount := 1000 }, { denom := "ujuno", amount := 3 }] 1 =
      .err .TicketPriceNotPaid :=
  bid_insufficient_funds_rejected base_state block_bid_active "owner"
    [{ denom := "ubtc", amount := 1000 }, { denom := "ujuno", amount := 3 }] 1
    rfl rfl rfl (by decide)

/-- C9: the stage gate of the three bid-ledger operations, for a height
scheduled stage with start `h` and duration `d` (derived end `h + d`): below
`h` each operation fails `BidStageNotBegun`; at or above `h + d` each fails
`BidStageEnded`; and any successful execution implies the block height lies
in the half-open window `[h, h + d)`.  (The owner gate precedes the stage
gate — see the owner-gate theorem — hence the owner hypothesis.  Time-based
stages go through the same `is_triggered`/`is_expired` comparisons on
`block.time`.) -/
theorem bid_ops_stage_gate
    (h d : Nat) (st : ContractState) (block : BlockInfo) (sender : String)
    (funds : List Coin) (allocation : Nat)
    (hown : st.config.owner = some sender)
    (hstage : st.stage_bid = height_stage h d) :
    (block.height < h →
      execute_bid st block sender funds allocation = .err .BidStageNotBegun ∧
      execute_change_bid st block sender allocation = .err .BidStageNotBegun ∧
      execute_remove_bid st block sender = .err .BidStageNotBegun) ∧
    (h + d ≤ block.height →
      execute_bid st block sender funds allocation = .err .BidStageEnded ∧
      execute_change_bid st block sender allocation = .err .BidStageEnded ∧
      execute_remove_bid st block sender = .err .BidStageEnded) ∧
    (∀ st2 resp,
      (execute_bid st block sender funds allocation = .ok st2 resp ∨
       execute_change_bid st block sender allocation = .ok st2 resp ∨
       execute_remove_bid st block sender = .ok st2 resp) →
      h ≤ block.height ∧ block.height < h + d) := by
  refine ⟨?_, ?_, ?_⟩
  · intro hlt
    have htrig : st.stage_bid.start.is_triggered block = false := by
      simp only [hstage, height_stage, Scheduled.is_triggered,
        decide_eq_false_iff_not]
      omega
    refine ⟨?_, ?_, ?_⟩ <;>
      simp [execute_bid, execute_change_bid, execute_remove_bid, hown, htrig]
  · intro hge
    have htrig : st.stage_bid.start.is_triggered block = true := by
      simp only [hstage, height_stage, Scheduled.is_triggered,
        decide_eq_true_eq]
      omega
    have hexp : st.stage_bid.ending.is_expired block = true := by
      simp only [hstage, height_stage, Expiration.is_expired,
        decide_eq_true_eq]
      omega
    refine ⟨?_, ?_, ?_⟩ <;>
      simp [execute_bid, execute_change_bid, execute_remove_bid, hown, htrig,
        hexp]
  · intro st2 resp hok
    by_cases h1 : h ≤ block.height
    · by_cases h2 : block.height < h + d
      · exact ⟨h1, h2⟩
      · exfalso
        have htrig : st.stage_bid.start.is_triggered block = true := by
          simp only [hstage, height_stage, Scheduled.is_triggered,
            decide_eq_true_eq]
          omega
        have hexp : st.stage_bid.ending.is_expired block = true := by
          simp only [hstage, height_stage, Expiration.is_expired,
            decide_eq_true_eq]
          omega
        rcases hok with hk | hk | hk <;>
          simp [execute_bid, execute_change_bid, execute_remove_bid, hown,
            htrig, hexp] at hk
    · exfalso
      have htrig : st.stage_bid.start.is_triggered block = false := by
        simp only [hstage, height_stage, Scheduled.is_triggered,
          decide_eq_false_iff_not]
        omega
      rcases hok with hk | hk | hk <;>
        simp [execute_bid, execute_change_bid, execute_remove_bid, hown,
          htrig] at hk

/-- Witness for C9: before the window (height 199999) a bid fails
`BidStageNotBegun`; at the window's end (height 200002 = 200000 + 2) a
removal fails `BidStageEnded`. -/
theorem bid_ops_stage_gate_witness :
    execute_bid base_state { height := 199999, time := 0 } "owner" [] 1 =
      .err .BidStageNotBegun ∧
    execute_remove_bid base_state { height := 200002, time := 0 } "owner" =
      .err .BidStageEnded :=
  ⟨((bid_ops_stage_gate 200000 2 base_state { height := 199999, time := 0 }
      "owner" [] 1 rfl rfl).1 (by decide)).1,
   ((bid_ops_stage_gate 200000 2 base_state { height := 200002, time := 0 }
      "owner" [] 1 rfl rfl).2.1 (by decide)).2.2⟩

/-- C10: the three bid-ledger operations are owner-gated: each handler loads
the config first and fails `Unauthorized` when the owner is `None` or the
sender differs from it, before the stage, payment, or bid-existence checks
(the conclusion holds for every block, every funds list and every bid map,
which is exactly what "before any other check" amounts to). -/
theorem bid_ops_owner_gate
    (st : ContractState) (block : BlockInfo) (sender : String)
    (funds : List Coin) (allocation : Nat)
    (hown : ∀ o, st.config.owner = some o → sender ≠ o) :
    execute_bid st block sender funds allocation = .err .Unauthorized ∧
    execute_change_bid st block sender allocation = .err .Unauthorized ∧
    execute_remove_bid st block sender = .err .Unauthorized := by
  cases hc : st.config.owner with
  | none =>
    refine ⟨?_, ?_, ?_⟩ <;>
      simp [execute_bid, execute_change_bid, execute_remove_bid, hc]
  | some o =>
    have hne : sender ≠ o := hown o hc
    refine ⟨?_, ?_, ?_⟩ <;>
      simp [execute_bid, execute_change_bid, execute_remove_bid, hc, hne]

/-- The frozen configuration: owner revoked. -/
def frozen_state : ContractState :=
  { base_state with
      config := { owner := none, cw20_token_address := "random0000" } }

/-- Witness for C10: a non-owner sender is rejected, and with the owner set
to `None` even the former owner is rejected. -/
theorem bid_ops_owner_gate_witness :
    execute_bid base_state block_bid_active "mallory"
      [{ denom := "ujuno", amount := 10 }] 1 = .err .Unauthorized ∧
    execute_remove_bid frozen_state block_bid_active "owner" =
      .err .Unauthorized :=
  ⟨(bid_ops_owner_gate base_state block_bid_active "mallory"
      [{ denom := "ujuno", amount := 10 }] 1
      (by
        intro o ho
        have ho2 : some "owner" = some o := ho
        injection ho2 with h2
        subst h2
        decide)).1,
   (bid_ops_owner_gate frozen_state block_bid_active "owner"
      [{ denom := "ujuno", amount := 10 }] 1
      (by
        intro o ho
        exact Option.noConfusion ho)).2.2⟩

end Cw
